import Mathlib

/-!
Shallow embedding of `src/freeview/SurfaceOverlay.cpp` (FreeSurfer freeview
surface overlay layer).  Scalars (C `float`/`double`) are modelled as `ℚ`;
the claims under study concern copying, comparison and branching, not
floating-point rounding.  Buffers (`float*` with explicit sizes) are `List ℚ`.
Calls into the external imaging library (`MRISsmoothMRI`, `MRIallocSequence`,
`MRIreadHeader`, `MRIread`, volume sampling, `MyUtils::CalculateCorrelationCoefficient`)
are modelled as explicit parameters: the spec declares them external
collaborators out of scope, so each is passed in as data
(a `Bool` allocation outcome, an `Option` read result, a function).
-/

/-- Header / voxel view of an `MRI*` volume as used by this file: dimensions
plus the `MRIFseq_vox(m, x, y, z, f)` accessor. -/
structure MRIVol where
  width : Nat
  height : Nat
  nframes : Nat
  vox : Nat → Nat → Nat → Nat → ℚ

/-- Correlation source volume (`LayerMRI`): its frame count and the per-frame
sample vector at the volume's current cursor position (the result of the
`GetSlicePosition` / `TargetToRAS` / `RASToOriginalIndex` /
`GetVoxelValueByOriginalIndexAllFrames` chain, which is external). -/
structure CorrSource where
  nframes : Nat
  sample : List ℚ

/-- State of one `SurfaceOverlay` object: the fields of the C++ class that the
studied behaviour touches.  `smooth` is `GetProperty()->GetSmooth()` and
`hemisphere` is `m_surface->GetHemisphere()`. -/
structure SurfaceOverlay where
  fDataRaw : List ℚ
  fData : List ℚ
  fDataUnsmoothed : List ℚ
  dMinValue : ℚ
  dMaxValue : ℚ
  bCorrelationData : Bool
  bCorrelationDataReady : Bool
  mriCorrelation : Option MRIVol
  nActiveFrame : Int
  nNumOfFrames : Nat
  nDataSize : Nat
  bComputeCorrelation : Bool
  volumeCorrelationSource : Option CorrSource
  fCorrelationSourceData : List ℚ
  smooth : Bool
  hemisphere : Nat

/-- Read a float at a (possibly negative) offset from a buffer base pointer.
An out-of-bounds read returns 0, standing for the unspecified value the C++
`memcpy` would fetch. -/
def readAt (l : List ℚ) (pos : Int) : ℚ :=
  if 0 ≤ pos then l.getD pos.toNat 0 else 0

/-- Model of `memcpy(dst, src + off, n*sizeof(float))`: the `n` floats starting
at offset `off` of `src`. -/
def sliceFrom (l : List ℚ) (off : Int) (n : Nat) : List ℚ :=
  (List.range n).map (fun i : Nat => readAt l (off + (i : Int)))

/-- The min/max scan used throughout `SurfaceOverlay.cpp`:
`if (max < v) max = v; else if (min > v) min = v;` folded over the data. -/
def scanMinMax (l : List ℚ) (mn mx : ℚ) : ℚ × ℚ :=
  match l with
  | [] => (mn, mx)
  | v :: rest =>
    if mx < v then scanMinMax rest mn v
    else if mn > v then scanMinMax rest v mx
    else scanMinMax rest mn mx

/-- Min/max recomputation as in `SetActiveFrame`: both running values start at
`m_fData[0]` and the scan runs over the whole buffer. -/
def computeMinMax (data : List ℚ) : ℚ × ℚ :=
  scanMinMax data (data.headD 0) (data.headD 0)

/-- Model of `SurfaceOverlay::SmoothData()` as called inside this file
(default arguments: steps from the property, output to `m_fData`).
`alloc` is the outcome of `MRIallocSequence`; `smoothFn` is the external
`MRISsmoothMRI` operator applied to the unsmoothed buffer, `none` when it
returns no result.  The returned `Bool` records whether the failure branch
printed its diagnostic (`cerr << "Can not allocate mri"`). -/
def SmoothDataRun (alloc : Bool) (smoothFn : List ℚ → Option (List ℚ))
    (s : SurfaceOverlay) : SurfaceOverlay × Bool :=
  if alloc then
    match smoothFn s.fDataUnsmoothed with
    | some d => ({ s with fData := d }, false)
    | none => (s, true)
  else (s, true)

/-- Model of `SurfaceOverlay::SetActiveFrame(int nFrame)`: clamp `nFrame ≥ F`
to 0, copy the frame slice from raw into working, working into unsmoothed,
rescan min/max, and re-apply smoothing when enabled. -/
def SetActiveFrame (alloc : Bool) (smoothFn : List ℚ → Option (List ℚ))
    (nFrame : Int) (s : SurfaceOverlay) : SurfaceOverlay :=
  let nF : Int := if nFrame ≥ (s.nNumOfFrames : Int) then 0 else nFrame
  let data := sliceFrom s.fDataRaw (nF * (s.nDataSize : Int)) s.nDataSize
  let mm := computeMinMax data
  let s1 : SurfaceOverlay :=
    { s with nActiveFrame := nF, fData := data, fDataUnsmoothed := data,
             dMinValue := mm.1, dMaxValue := mm.2 }
  if s1.smooth then (SmoothDataRun alloc smoothFn s1).1 else s1

/-- Model of `SurfaceOverlay::InitializeData(float*, int, int)`: adopt the
supplied buffer and counts, select frame 0, and zero the correlation source
sample buffer.  (`GetProperty()->Reset()` only touches the external color map.) -/
def InitializeData (alloc : Bool) (smoothFn : List ℚ → Option (List ℚ))
    (buffer : List ℚ) (nvertices nframes : Nat) (s : SurfaceOverlay) : SurfaceOverlay :=
  let s1 : SurfaceOverlay :=
    { s with nDataSize := nvertices, nNumOfFrames := nframes, fDataRaw := buffer,
             fCorrelationSourceData := List.replicate nframes 0 }
  SetActiveFrame alloc smoothFn 0 s1

/-- Model of `SurfaceOverlay::GetRange(double*)`. -/
def GetRange (s : SurfaceOverlay) : ℚ × ℚ :=
  if s.bComputeCorrelation then (-1, 1) else (s.dMinValue, s.dMaxValue)

/-- Model of `SurfaceOverlay::UpdateSmooth` on an unpaired overlay
(`m_overlayPaired == NULL`, so the trigger-paired tail does nothing). -/
def UpdateSmooth (alloc : Bool) (smoothFn : List ℚ → Option (List ℚ))
    (s : SurfaceOverlay) : SurfaceOverlay :=
  if s.smooth then (SmoothDataRun alloc smoothFn s).1
  else { s with fData := s.fDataUnsmoothed }

/-- Model of `SurfaceOverlay::LoadCorrelationData(const QString&)`.
`header` is the result of `MRIreadHeader` on the file, `fullRead` the result
of the subsequent full `MRIread` (`none` models a failed read).  Returns the
C++ boolean result together with the updated state. -/
def LoadCorrelationData (header fullRead : Option MRIVol)
    (s : SurfaceOverlay) : Bool × SurfaceOverlay :=
  match header with
  | none => (false, s)
  | some h =>
    if h.width ≠ s.nDataSize * 2 ∨ (h.height ≠ 1 ∧ h.height ≠ s.nDataSize * 2) ∨
       (h.nframes ≠ 1 ∧ h.nframes ≠ s.nDataSize * 2) then
      (false, s)
    else
      match fullRead with
      | none => (false, s)
      | some m =>
        (true, { s with mriCorrelation := some m, bCorrelationData := true,
                        bCorrelationDataReady := false })

/-- Value read by `UpdateCorrelationAtVertex` for vertex `i`:
`MRIFseq_vox(m, nVertex + hSeed*N, i + hOwn*N, 0, 0)` in the matrix layout
(`height > 1`), else the frame-indexed layout.  `hSeed` is the seed
hemisphere argument, `hOwn` the reading overlay's own hemisphere. -/
def corrRowVal (m : MRIVol) (nVertex hSeed hOwn N i : Nat) : ℚ :=
  if m.height > 1 then m.vox (nVertex + hSeed * N) (i + hOwn * N) 0 0
  else m.vox (nVertex + hSeed * N) 0 0 (i + hOwn * N)

/-- The matrix row/column `UpdateCorrelationAtVertex` copies into working. -/
def corrRow (m : MRIVol) (nVertex hSeed hOwn N : Nat) : List ℚ :=
  (List.range N).map (corrRowVal m nVertex hSeed hOwn N)

/-- Body of `SurfaceOverlay::UpdateCorrelationAtVertex` up to (and excluding)
the paired-propagation block: extract row/column `nVertex + nHemisphere*N` of
the correlation matrix at this overlay's own data offset into working, rescan
min/max (both seeded from the entry at `i = 0`), copy working into raw and
unsmoothed, re-apply smoothing when enabled, and mark the data ready.
The C++ dereferences `m_mriCorrelation` unconditionally; the `none` branch
models the states the claims never reach (no matrix loaded). -/
def updateCorrCore (alloc : Bool) (smoothFn : List ℚ → Option (List ℚ))
    (nVertex nHemisphere : Nat) (s : SurfaceOverlay) : SurfaceOverlay :=
  match s.mriCorrelation with
  | none => s
  | some m =>
    let val : Nat → ℚ := corrRowVal m nVertex nHemisphere s.hemisphere s.nDataSize
    let data := corrRow m nVertex nHemisphere s.hemisphere s.nDataSize
    let mm := scanMinMax data (val 0) (val 0)
    let s1 : SurfaceOverlay :=
      { s with dMinValue := mm.1, dMaxValue := mm.2, fData := data,
               fDataRaw := data ++ s.fDataRaw.drop s.nDataSize,
               fDataUnsmoothed := data,
               bCorrelationDataReady := true }
    if s1.smooth then (SmoothDataRun alloc smoothFn s1).1 else s1

/-- Model of `SurfaceOverlay::UpdateCorrelationAtVertex(int, int)` over a pair
of overlays (`self`, `other` with `self.m_overlayPaired == &other` when
`paired`).  `fuel` bounds the mutual recursion the C++ performs through the
pair (the call would not terminate if both overlays had the same hemisphere);
`selfBlocked`/`otherBlocked` track `QObject::blockSignals`.  Returns the two
updated overlays and the number of `DataUpdated` notifications each one
actually emitted. -/
def updateCVAux : Nat → Bool → (List ℚ → Option (List ℚ)) → Nat → Int →
    Bool → Bool → Bool → SurfaceOverlay → SurfaceOverlay →
    SurfaceOverlay × SurfaceOverlay × Nat × Nat
  | 0, _, _, _, _, _, _, _, self, other => (self, other, 0, 0)
  | (fuel+1), alloc, smoothFn, nVertex, nHemiIn, paired, selfBlocked, _otherBlocked,
      self, other =>
    let h : Nat := if nHemiIn = -1 then self.hemisphere else nHemiIn.toNat
    let self1 := updateCorrCore alloc smoothFn nVertex h self
    if paired ∧ h = self1.hemisphere then
      let r := updateCVAux fuel alloc smoothFn nVertex (h : Int) paired
                 true selfBlocked other self1
      let other1 := r.1
      let self2 := r.2.1
      let otherEmits := r.2.2.1
      let selfEmitsNested := r.2.2.2
      (self2, other1, (if selfBlocked then 0 else 1) + selfEmitsNested, otherEmits)
    else
      (self1, other, (if selfBlocked then 0 else 1), 0)

/-- Entry point of `UpdateCorrelationAtVertex` as called from outside: signals
unblocked on both overlays.  Result: (self, other, self's emitted
notification count, other's emitted notification count). -/
def UpdateCorrelationAtVertex (alloc : Bool) (smoothFn : List ℚ → Option (List ℚ))
    (fuel nVertex : Nat) (nHemisphere : Int) (paired : Bool)
    (self other : SurfaceOverlay) : SurfaceOverlay × SurfaceOverlay × Nat × Nat :=
  updateCVAux fuel alloc smoothFn nVertex nHemisphere paired false false self other

/-- Per-vertex recomputation performed by `UpdateCorrelationCoefficient`:
vertex `i`'s per-frame signal is `m_fDataRaw[i + j*N]` for `j < F`,
correlated against the sampled source signal by the external
`CalculateCorrelationCoefficient`. -/
def corrValues (corrFn : List ℚ → List ℚ → Nat → ℚ) (src raw : List ℚ)
    (N F : Nat) : List ℚ :=
  (List.range N).map (fun i =>
    corrFn src ((List.range F).map (fun j => raw.getD (i + j * N) 0)) F)

/-- Model of `SurfaceOverlay::UpdateCorrelationCoefficient()`.  The external
volume-sampling chain yields `vol.sample`; `corrFn` is the external
`MyUtils::CalculateCorrelationCoefficient(src, data, nframes)`. -/
def UpdateCorrelationCoefficient (alloc : Bool)
    (smoothFn : List ℚ → Option (List ℚ)) (corrFn : List ℚ → List ℚ → Nat → ℚ)
    (s : SurfaceOverlay) : SurfaceOverlay :=
  if s.bComputeCorrelation then
    match s.volumeCorrelationSource with
    | none => s
    | some vol =>
      if vol.nframes = s.nNumOfFrames then
        let src := vol.sample
        let data := corrValues corrFn src s.fDataRaw s.nDataSize s.nNumOfFrames
        let s1 : SurfaceOverlay :=
          { s with fCorrelationSourceData := src,
                   fData := data, fDataUnsmoothed := data }
        if s1.smooth then (SmoothDataRun alloc smoothFn s1).1 else s1
      else s
  else s

/-- Model of `SurfaceOverlay::SetComputeCorrelation(bool)`. -/
def SetComputeCorrelation (alloc : Bool)
    (smoothFn : List ℚ → Option (List ℚ)) (corrFn : List ℚ → List ℚ → Nat → ℚ)
    (flag : Bool) (s : SurfaceOverlay) : SurfaceOverlay :=
  let s1 : SurfaceOverlay := { s with bComputeCorrelation := flag }
  if flag then UpdateCorrelationCoefficient alloc smoothFn corrFn s1
  else SetActiveFrame alloc smoothFn s1.nActiveFrame s1

/-- Heap abstraction for `SurfaceOverlay::~SurfaceOverlay` on a pair of
overlays that went through `CopyCorrelationData` (shared property object and
shared correlation matrix): `aBackref` is `a.m_overlayPaired == &b`,
`propFrees`/`mriFrees` count `delete m_property` / `MRIfree(&m_mriCorrelation)`
executions on the shared objects. -/
structure PairWorld where
  aBackref : Bool
  bBackref : Bool
  hasMatrix : Bool
  propFrees : Nat
  mriFrees : Nat

/-- Destructor of overlay `a`: when its pair pointer is live it only nulls the
partner's back-reference; otherwise it deletes the (shared) property and frees
the correlation matrix when present. -/
def destroyA (w : PairWorld) : PairWorld :=
  if w.aBackref then { w with bBackref := false }
  else { w with propFrees := w.propFrees + 1,
                mriFrees := w.mriFrees + (if w.hasMatrix then 1 else 0) }

/-- Destructor of overlay `b`, symmetric to `destroyA`. -/
def destroyB (w : PairWorld) : PairWorld :=
  if w.bBackref then { w with aBackref := false }
  else { w with propFrees := w.propFrees + 1,
                mriFrees := w.mriFrees + (if w.hasMatrix then 1 else 0) }

/-- A `SurfaceOverlay` as freshly constructed (the constructor's member
initializer list; all buffers empty before any load). -/
def emptyOverlay : SurfaceOverlay :=
  { fDataRaw := [], fData := [], fDataUnsmoothed := [],
    dMinValue := 0, dMaxValue := 0,
    bCorrelationData := false, bCorrelationDataReady := false,
    mriCorrelation := none, nActiveFrame := 0, nNumOfFrames := 1,
    nDataSize := 0, bComputeCorrelation := false,
    volumeCorrelationSource := none, fCorrelationSourceData := [],
    smooth := false, hemisphere := 0 }

/-- The min/max scan with ordered running values computes the left folds of
`min` and `max` over the list. -/
theorem scanMinMax_eq (l : List ℚ) (mn mx : ℚ) (h : mn ≤ mx) :
    scanMinMax l mn mx = (l.foldl min mn, l.foldl max mx) := by
  induction l generalizing mn mx with
  | nil => simp [scanMinMax]
  | cons v rest ih =>
    simp only [scanMinMax, List.foldl]
    by_cases h1 : mx < v
    · rw [if_pos h1, ih mn v (le_of_lt (lt_of_le_of_lt h h1)),
        min_eq_left (le_of_lt (lt_of_le_of_lt h h1)), max_eq_right (le_of_lt h1)]
    · rw [if_neg h1]
      by_cases h2 : mn > v
      · rw [if_pos h2, ih v mx (le_trans (le_of_lt h2) h),
          min_eq_right (le_of_lt h2), max_eq_left (not_lt.mp h1)]
      · rw [if_neg h2, ih mn mx h, min_eq_left (not_lt.mp h2),
          max_eq_left (not_lt.mp h1)]

theorem foldl_min_le_init (l : List ℚ) (a : ℚ) : l.foldl min a ≤ a := by
  induction l generalizing a with
  | nil => exact le_refl a
  | cons v rest ih => exact le_trans (ih (min a v)) (min_le_left a v)

theorem foldl_min_le_mem (l : List ℚ) (a : ℚ) : ∀ x ∈ l, l.foldl min a ≤ x := by
  induction l generalizing a with
  | nil => intro x hx; simp at hx
  | cons v rest ih =>
    intro x hx
    rcases List.mem_cons.mp hx with rfl | hx
    · exact le_trans (foldl_min_le_init rest (min a x)) (min_le_right a x)
    · exact ih (min a v) x hx

theorem foldl_min_eq_or_mem (l : List ℚ) (a : ℚ) :
    l.foldl min a = a ∨ l.foldl min a ∈ l := by
  induction l generalizing a with
  | nil => exact Or.inl rfl
  | cons v rest ih =>
    rcases ih (min a v) with h | h
    · rcases min_cases a v with ⟨he, _⟩ | ⟨he, _⟩
      · exact Or.inl (by rw [List.foldl, h, he])
      · exact Or.inr (by rw [List.foldl, h, he]; exact List.mem_cons_self v rest)
    · exact Or.inr (List.mem_cons_of_mem v h)

theorem le_foldl_max_init (l : List ℚ) (a : ℚ) : a ≤ l.foldl max a := by
  induction l generalizing a with
  | nil => exact le_refl a
  | cons v rest ih => exact le_trans (le_max_left a v) (ih (max a v))

theorem mem_le_foldl_max (l : List ℚ) (a : ℚ) : ∀ x ∈ l, x ≤ l.foldl max a := by
  induction l generalizing a with
  | nil => intro x hx; simp at hx
  | cons v rest ih =>
    intro x hx
    rcases List.mem_cons.mp hx with rfl | hx
    · exact le_trans (le_max_right a x) (le_foldl_max_init rest (max a x))
    · exact ih (max a v) x hx

theorem foldl_max_eq_or_mem (l : List ℚ) (a : ℚ) :
    l.foldl max a = a ∨ l.foldl max a ∈ l := by
  induction l generalizing a with
  | nil => exact Or.inl rfl
  | cons v rest ih =>
    rcases ih (max a v) with h | h
    · rcases max_cases a v with ⟨he, _⟩ | ⟨he, _⟩
      · exact Or.inl (by rw [List.foldl, h, he])
      · exact Or.inr (by rw [List.foldl, h, he]; exact List.mem_cons_self v rest)
    · exact Or.inr (List.mem_cons_of_mem v h)

/-- On a nonempty buffer the rescan yields the true minimum and maximum:
each is attained by an element and bounds every element. -/
theorem computeMinMax_spec (data : List ℚ) (h : data ≠ []) :
    (computeMinMax data).1 ∈ data ∧ (∀ x ∈ data, (computeMinMax data).1 ≤ x) ∧
    (computeMinMax data).2 ∈ data ∧ (∀ x ∈ data, x ≤ (computeMinMax data).2) := by
  have h0 : data.headD 0 ∈ data := by
    cases data with
    | nil => exact absurd rfl h
    | cons v rest => exact List.mem_cons_self v rest
  rw [computeMinMax, scanMinMax_eq data _ _ (le_refl _)]
  refine ⟨?_, foldl_min_le_mem data _, ?_, mem_le_foldl_max data _⟩
  · rcases foldl_min_eq_or_mem data (data.headD 0) with he | hm
    · rw [he]; exact h0
    · exact hm
  · rcases foldl_max_eq_or_mem data (data.headD 0) with he | hm
    · rw [he]; exact h0
    · exact hm

theorem sliceFrom_length (l : List ℚ) (off : Int) (n : Nat) :
    (sliceFrom l off n).length = n := by
  unfold sliceFrom
  rw [List.length_map, List.length_range]

theorem sliceFrom_getElem (l : List ℚ) (off : Int) (n i : Nat)
    (h : i < (sliceFrom l off n).length) :
    (sliceFrom l off n)[i] = readAt l (off + i) := by
  unfold sliceFrom at h ⊢
  rw [List.getElem_map, List.getElem_range]

theorem readAt_nat (l : List ℚ) (k n i : Nat) (h : k * n + i < l.length) :
    readAt l ((k : Int) * (n : Int) + (i : Int)) = l[k * n + i] := by
  unfold readAt
  have he : ((k : Int) * (n : Int) + (i : Int)) = ((k * n + i : Nat) : Int) := by
    push_cast; ring
  rw [he, if_pos (Int.ofNat_nonneg _), Int.toNat_natCast]
  exact List.getD_eq_getElem l 0 h

/-- For a genuinely in-range frame index, the modelled `memcpy` from
`m_fDataRaw + k*N` is the sublist `raw[k*N .. k*N+N)`. -/
theorem sliceFrom_eq_drop_take (l : List ℚ) (k n : Nat) (h : k * n + n ≤ l.length) :
    sliceFrom l ((k : Int) * (n : Int)) n = (l.drop (k * n)).take n := by
  apply List.ext_getElem
  · rw [sliceFrom_length, List.length_take, List.length_drop]; omega
  · intro i h1 h2
    have hi : i < n := by rw [sliceFrom_length] at h1; exact h1
    have hin : k * n + i < l.length := by omega
    rw [List.getElem_take, List.getElem_drop, sliceFrom_getElem,
      readAt_nat l k n i hin]

/-- Field-level description of `SetActiveFrame` for an in-range frame index
with smoothing disabled. -/
theorem setActiveFrame_fields (alloc : Bool) (fn : List ℚ → Option (List ℚ))
    (k : Nat) (s : SurfaceOverlay) (hs : s.smooth = false)
    (hk : (k : Int) < (s.nNumOfFrames : Int)) :
    (SetActiveFrame alloc fn (k : Int) s).fData =
      sliceFrom s.fDataRaw ((k : Int) * (s.nDataSize : Int)) s.nDataSize ∧
    (SetActiveFrame alloc fn (k : Int) s).fDataUnsmoothed =
      sliceFrom s.fDataRaw ((k : Int) * (s.nDataSize : Int)) s.nDataSize ∧
    (SetActiveFrame alloc fn (k : Int) s).dMinValue =
      (computeMinMax (sliceFrom s.fDataRaw ((k : Int) * (s.nDataSize : Int)) s.nDataSize)).1 ∧
    (SetActiveFrame alloc fn (k : Int) s).dMaxValue =
      (computeMinMax (sliceFrom s.fDataRaw ((k : Int) * (s.nDataSize : Int)) s.nDataSize)).2 ∧
    (SetActiveFrame alloc fn (k : Int) s).nActiveFrame = (k : Int) ∧
    (SetActiveFrame alloc fn (k : Int) s).fDataRaw = s.fDataRaw ∧
    (SetActiveFrame alloc fn (k : Int) s).nDataSize = s.nDataSize ∧
    (SetActiveFrame alloc fn (k : Int) s).nNumOfFrames = s.nNumOfFrames ∧
    (SetActiveFrame alloc fn (k : Int) s).smooth = s.smooth ∧
    (SetActiveFrame alloc fn (k : Int) s).bComputeCorrelation = s.bComputeCorrelation := by
  unfold SetActiveFrame
  simp [hs, not_le.mpr hk]

/-- Fields of the state after `InitializeData(buffer, N, F)` that later
operations depend on (smoothing disabled throughout the load). -/
theorem initializeData_fields (alloc : Bool) (fn : List ℚ → Option (List ℚ))
    (raw : List ℚ) (N F : Nat) (s0 : SurfaceOverlay)
    (hF : 1 ≤ F) (hs : s0.smooth = false) :
    (InitializeData alloc fn raw N F s0).fDataRaw = raw ∧
    (InitializeData alloc fn raw N F s0).nDataSize = N ∧
    (InitializeData alloc fn raw N F s0).nNumOfFrames = F ∧
    (InitializeData alloc fn raw N F s0).smooth = false ∧
    (InitializeData alloc fn raw N F s0).bComputeCorrelation = s0.bComputeCorrelation := by
  unfold InitializeData
  have h0 := setActiveFrame_fields alloc fn 0
    { s0 with nDataSize := N, nNumOfFrames := F, fDataRaw := raw,
              fCorrelationSourceData := List.replicate F 0 }
    hs (by exact_mod_cast Nat.lt_of_lt_of_le Nat.zero_lt_one hF)
  push_cast at h0
  exact ⟨h0.2.2.2.2.2.1, h0.2.2.2.2.2.2.1, h0.2.2.2.2.2.2.2.1,
    by rw [h0.2.2.2.2.2.2.2.2.1]; exact hs, h0.2.2.2.2.2.2.2.2.2⟩

/-- Joint specification of `InitializeData` followed by `SetActiveFrame k`
(in-range `k`, smoothing disabled): working buffer is the raw frame slice,
unsmoothed equals working, cached min/max are the true min/max of the slice,
and compute-correlation mode is untouched. -/
theorem load_setActiveFrame_spec (alloc : Bool) (fn : List ℚ → Option (List ℚ))
    (raw : List ℚ) (N F k : Nat) (s0 : SurfaceOverlay)
    (hN : 0 < N) (hF : 1 ≤ F) (hlen : raw.length = N * F) (hk : k < F)
    (hs : s0.smooth = false) :
    (SetActiveFrame alloc fn (k : Int) (InitializeData alloc fn raw N F s0)).fData =
      (raw.drop (k * N)).take N ∧
    (SetActiveFrame alloc fn (k : Int) (InitializeData alloc fn raw N F s0)).fDataUnsmoothed =
      (SetActiveFrame alloc fn (k : Int) (InitializeData alloc fn raw N F s0)).fData ∧
    (SetActiveFrame alloc fn (k : Int) (InitializeData alloc fn raw N F s0)).dMinValue ∈
      (raw.drop (k * N)).take N ∧
    (∀ x ∈ (raw.drop (k * N)).take N,
      (SetActiveFrame alloc fn (k : Int) (InitializeData alloc fn raw N F s0)).dMinValue ≤ x) ∧
    (SetActiveFrame alloc fn (k : Int) (InitializeData alloc fn raw N F s0)).dMaxValue ∈
      (raw.drop (k * N)).take N ∧
    (∀ x ∈ (raw.drop (k * N)).take N,
      x ≤ (SetActiveFrame alloc fn (k : Int) (InitializeData alloc fn raw N F s0)).dMaxValue) ∧
    (SetActiveFrame alloc fn (k : Int) (InitializeData alloc fn raw N F s0)).bComputeCorrelation =
      s0.bComputeCorrelation := by
  have hbound : k * N + N ≤ raw.length := by
    rw [hlen]
    calc k * N + N = (k + 1) * N := by ring
    _ ≤ F * N := Nat.mul_le_mul_right N hk
    _ = N * F := Nat.mul_comm F N
  set s1 : SurfaceOverlay := InitializeData alloc fn raw N F s0 with hs1
  have hfields1 := initializeData_fields alloc fn raw N F s0 hF hs
  rw [← hs1] at hfields1
  have hk2 : (k : Int) < (s1.nNumOfFrames : Int) := by
    rw [hfields1.2.2.1]; exact_mod_cast hk
  have h2 := setActiveFrame_fields alloc fn k s1 hfields1.2.2.2.1 hk2
  rw [hfields1.1, hfields1.2.1] at h2
  have hslice : sliceFrom raw ((k : Int) * (N : Int)) N = (raw.drop (k * N)).take N :=
    sliceFrom_eq_drop_take raw k N hbound
  rw [hslice] at h2
  have hne : (raw.drop (k * N)).take N ≠ [] := by
    apply List.ne_nil_of_length_pos
    rw [List.length_take, List.length_drop]
    omega
  have hmm := computeMinMax_spec ((raw.drop (k * N)).take N) hne
  refine ⟨h2.1, by rw [h2.2.1, h2.1], ?_, ?_, ?_, ?_, ?_⟩
  · rw [h2.2.2.1]; exact hmm.1
  · rw [h2.2.2.1]; exact hmm.2.1
  · rw [h2.2.2.2.1]; exact hmm.2.2.1
  · rw [h2.2.2.2.1]; exact hmm.2.2.2
  · rw [h2.2.2.2.2.2.2.2.2.2]; exact hfields1.2.2.2.2

/-- C1: for every vertex count `N > 0` and frame count `F ≥ 1`, after loading
raw data of size `N × F` via `InitializeData` and calling `SetActiveFrame k`
with `0 ≤ k < F` while smoothing is disabled, the working buffer equals the
raw slice `raw[k·N .. k·N+N)`, the unsmoothed buffer equals the working
buffer, and the cached min/max are the minimum and maximum of that slice. -/
theorem C1_load_setActiveFrame (alloc : Bool) (fn : List ℚ → Option (List ℚ))
    (raw : List ℚ) (N F k : Nat) (s0 : SurfaceOverlay)
    (hN : 0 < N) (hF : 1 ≤ F) (hlen : raw.length = N * F) (hk : k < F)
    (hs : s0.smooth = false) :
    (SetActiveFrame alloc fn (k : Int) (InitializeData alloc fn raw N F s0)).fData =
      (raw.drop (k * N)).take N ∧
    (SetActiveFrame alloc fn (k : Int) (InitializeData alloc fn raw N F s0)).fDataUnsmoothed =
      (SetActiveFrame alloc fn (k : Int) (InitializeData alloc fn raw N F s0)).fData ∧
    (SetActiveFrame alloc fn (k : Int) (InitializeData alloc fn raw N F s0)).dMinValue ∈
      (raw.drop (k * N)).take N ∧
    (∀ x ∈ (raw.drop (k * N)).take N,
      (SetActiveFrame alloc fn (k : Int) (InitializeData alloc fn raw N F s0)).dMinValue ≤ x) ∧
    (SetActiveFrame alloc fn (k : Int) (InitializeData alloc fn raw N F s0)).dMaxValue ∈
      (raw.drop (k * N)).take N ∧
    (∀ x ∈ (raw.drop (k * N)).take N,
      x ≤ (SetActiveFrame alloc fn (k : Int) (InitializeData alloc fn raw N F s0)).dMaxValue) := by
  have h := load_setActiveFrame_spec alloc fn raw N F k s0 hN hF hlen hk hs
  exact ⟨h.1, h.2.1, h.2.2.1, h.2.2.2.1, h.2.2.2.2.1, h.2.2.2.2.2.1⟩

/-- Witness for C1 at `N = 2`, `F = 2`, `raw = [1,2,3,4]`, `k = 1`. -/
theorem C1_load_setActiveFrame_witness :
    (SetActiveFrame true (fun _ => none) ((1 : Nat) : Int)
      (InitializeData true (fun _ => none) [1, 2, 3, 4] 2 2 emptyOverlay)).fData =
      (([1, 2, 3, 4] : List ℚ).drop (1 * 2)).take 2 ∧
    (SetActiveFrame true (fun _ => none) ((1 : Nat) : Int)
      (InitializeData true (fun _ => none) [1, 2, 3, 4] 2 2 emptyOverlay)).fDataUnsmoothed =
      (SetActiveFrame true (fun _ => none) ((1 : Nat) : Int)
        (InitializeData true (fun _ => none) [1, 2, 3, 4] 2 2 emptyOverlay)).fData ∧
    (SetActiveFrame true (fun _ => none) ((1 : Nat) : Int)
      (InitializeData true (fun _ => none) [1, 2, 3, 4] 2 2 emptyOverlay)).dMinValue ∈
      (([1, 2, 3, 4] : List ℚ).drop (1 * 2)).take 2 ∧
    (∀ x ∈ (([1, 2, 3, 4] : List ℚ).drop (1 * 2)).take 2,
      (SetActiveFrame true (fun _ => none) ((1 : Nat) : Int)
        (InitializeData true (fun _ => none) [1, 2, 3, 4] 2 2 emptyOverlay)).dMinValue ≤ x) ∧
    (SetActiveFrame true (fun _ => none) ((1 : Nat) : Int)
      (InitializeData true (fun _ => none) [1, 2, 3, 4] 2 2 emptyOverlay)).dMaxValue ∈
      (([1, 2, 3, 4] : List ℚ).drop (1 * 2)).take 2 ∧
    (∀ x ∈ (([1, 2, 3, 4] : List ℚ).drop (1 * 2)).take 2,
      x ≤ (SetActiveFrame true (fun _ => none) ((1 : Nat) : Int)
        (InitializeData true (fun _ => none) [1, 2, 3, 4] 2 2 emptyOverlay)).dMaxValue) :=
  C1_load_setActiveFrame true (fun _ => none) [1, 2, 3, 4] 2 2 1 emptyOverlay
    (by decide) (by decide) (by decide) (by decide) rfl

/-- C6 counterexample: a negative frame index is also out of range, yet
`SetActiveFrame (-1)` does not behave like `SetActiveFrame 0`: the clamp only
fires for `nFrame ≥ m_nNumOfFrames`, so `m_nActiveFrame` is left at `-1`. -/
theorem C6_counterexample :
    (SetActiveFrame true (fun _ => none) (-1)
      (InitializeData true (fun _ => none) [1, 2] 1 2 emptyOverlay)).nActiveFrame = -1 ∧
    (SetActiveFrame true (fun _ => none) 0
      (InitializeData true (fun _ => none) [1, 2] 1 2 emptyOverlay)).nActiveFrame = 0 ∧
    SetActiveFrame true (fun _ => none) (-1)
        (InitializeData true (fun _ => none) [1, 2] 1 2 emptyOverlay) ≠
      SetActiveFrame true (fun _ => none) 0
        (InitializeData true (fun _ => none) [1, 2] 1 2 emptyOverlay) := by
  refine ⟨by decide, by decide, fun h => ?_⟩
  exact absurd (congrArg SurfaceOverlay.nActiveFrame h) (by decide)

/-- C6 amended: for every frame index `nFrame ≥ m_nNumOfFrames`, the call
behaves exactly as if frame 0 had been selected (the index silently clamps to
0 and no error is raised); a negative index is not clamped. -/
theorem C6_clamp_ge (alloc : Bool) (fn : List ℚ → Option (List ℚ))
    (nFrame : Int) (s : SurfaceOverlay) (h : (s.nNumOfFrames : Int) ≤ nFrame) :
    SetActiveFrame alloc fn nFrame s = SetActiveFrame alloc fn 0 s := by
  unfold SetActiveFrame
  simp only [ge_iff_le, if_pos h, ite_self]

/-- Witness for C6 at `nFrame = 5` on a freshly constructed overlay
(`m_nNumOfFrames = 1`). -/
theorem C6_clamp_ge_witness :
    SetActiveFrame true (fun _ => none) 5 emptyOverlay =
      SetActiveFrame true (fun _ => none) 0 emptyOverlay :=
  C6_clamp_ge true (fun _ => none) 5 emptyOverlay (by decide)

/-- C2 counterexample: with smoothing enabled, frame selection rescans min/max
over the raw slice and only afterwards overwrites the working buffer with the
smoothed values, and `SmoothData` never updates `m_dMinValue`/`m_dMaxValue`.
In the reachable state below the mode is off, the working buffer is `[5]`, yet
`GetRange` reports the stale cache `(0, 0)` — not the buffer's min/max (the
reported value is not even an element of the buffer). -/
theorem C2_counterexample :
    (InitializeData true (fun _ => some [(5 : ℚ)]) [0] 1 1
      { emptyOverlay with smooth := true }).bComputeCorrelation = false ∧
    (InitializeData true (fun _ => some [(5 : ℚ)]) [0] 1 1
      { emptyOverlay with smooth := true }).fData = [(5 : ℚ)] ∧
    GetRange (InitializeData true (fun _ => some [(5 : ℚ)]) [0] 1 1
      { emptyOverlay with smooth := true }) = (0, 0) ∧
    (GetRange (InitializeData true (fun _ => some [(5 : ℚ)]) [0] 1 1
      { emptyOverlay with smooth := true })).1 ∉
      (InitializeData true (fun _ => some [(5 : ℚ)]) [0] 1 1
        { emptyOverlay with smooth := true }).fData := by
  refine ⟨by decide, by decide, by decide, by decide⟩

/-- C2 amended: `GetRange` reports the fixed `[-1, 1]` whenever
compute-correlation mode is enabled, and otherwise reports the cached
min/max; the cached min/max equals the minimum and maximum of the current
working buffer whenever smoothing is disabled (here: for any state produced
by a data load followed by an in-range frame selection). -/
theorem C2_range_mode (alloc : Bool) (fn : List ℚ → Option (List ℚ))
    (raw : List ℚ) (N F k : Nat) (s0 : SurfaceOverlay)
    (hN : 0 < N) (hF : 1 ≤ F) (hlen : raw.length = N * F) (hk : k < F)
    (hs : s0.smooth = false) (hc : s0.bComputeCorrelation = false) :
    (∀ t : SurfaceOverlay, t.bComputeCorrelation = true → GetRange t = (-1, 1)) ∧
    ((GetRange (SetActiveFrame alloc fn (k : Int)
        (InitializeData alloc fn raw N F s0))).1 ∈
      (SetActiveFrame alloc fn (k : Int)
        (InitializeData alloc fn raw N F s0)).fData ∧
     (∀ x ∈ (SetActiveFrame alloc fn (k : Int)
        (InitializeData alloc fn raw N F s0)).fData,
       (GetRange (SetActiveFrame alloc fn (k : Int)
         (InitializeData alloc fn raw N F s0))).1 ≤ x) ∧
     (GetRange (SetActiveFrame alloc fn (k : Int)
        (InitializeData alloc fn raw N F s0))).2 ∈
      (SetActiveFrame alloc fn (k : Int)
        (InitializeData alloc fn raw N F s0)).fData ∧
     (∀ x ∈ (SetActiveFrame alloc fn (k : Int)
        (InitializeData alloc fn raw N F s0)).fData,
       x ≤ (GetRange (SetActiveFrame alloc fn (k : Int)
         (InitializeData alloc fn raw N F s0))).2)) := by
  constructor
  · intro t ht
    unfold GetRange
    rw [ht]
    simp
  · have hmain := load_setActiveFrame_spec alloc fn raw N F k s0 hN hF hlen hk hs
    have hc2 : (SetActiveFrame alloc fn (k : Int)
        (InitializeData alloc fn raw N F s0)).bComputeCorrelation = false := by
      rw [hmain.2.2.2.2.2.2]; exact hc
    unfold GetRange
    rw [hc2]
    simp only [Bool.false_eq_true, if_false]
    rw [hmain.1]
    exact ⟨hmain.2.2.1, hmain.2.2.2.1, hmain.2.2.2.2.1, hmain.2.2.2.2.2.1⟩

/-- Witness for C2 at `N = 1`, `F = 2`, `raw = [1,2]`, `k = 1`, fresh overlay. -/
theorem C2_range_mode_witness :
    (∀ t : SurfaceOverlay, t.bComputeCorrelation = true → GetRange t = (-1, 1)) ∧
    ((GetRange (SetActiveFrame true (fun _ => none) ((1 : Nat) : Int)
        (InitializeData true (fun _ => none) [1, 2] 1 2 emptyOverlay))).1 ∈
      (SetActiveFrame true (fun _ => none) ((1 : Nat) : Int)
        (InitializeData true (fun _ => none) [1, 2] 1 2 emptyOverlay)).fData ∧
     (∀ x ∈ (SetActiveFrame true (fun _ => none) ((1 : Nat) : Int)
        (InitializeData true (fun _ => none) [1, 2] 1 2 emptyOverlay)).fData,
       (GetRange (SetActiveFrame true (fun _ => none) ((1 : Nat) : Int)
         (InitializeData true (fun _ => none) [1, 2] 1 2 emptyOverlay))).1 ≤ x) ∧
     (GetRange (SetActiveFrame true (fun _ => none) ((1 : Nat) : Int)
        (InitializeData true (fun _ => none) [1, 2] 1 2 emptyOverlay))).2 ∈
      (SetActiveFrame true (fun _ => none) ((1 : Nat) : Int)
        (InitializeData true (fun _ => none) [1, 2] 1 2 emptyOverlay)).fData ∧
     (∀ x ∈ (SetActiveFrame true (fun _ => none) ((1 : Nat) : Int)
        (InitializeData true (fun _ => none) [1, 2] 1 2 emptyOverlay)).fData,
       x ≤ (GetRange (SetActiveFrame true (fun _ => none) ((1 : Nat) : Int)
         (InitializeData true (fun _ => none) [1, 2] 1 2 emptyOverlay))).2)) :=
  C2_range_mode true (fun _ => none) [1, 2] 1 2 1 emptyOverlay
    (by decide) (by decide) (by decide) (by decide) rfl rfl

/-- A smoothing pass only rewrites the working buffer: the unsmoothed
snapshot and the smoothing flag survive `SmoothData` unchanged. -/
theorem smoothDataRun_preserves (alloc : Bool) (fn : List ℚ → Option (List ℚ))
    (s : SurfaceOverlay) :
    (SmoothDataRun alloc fn s).1.fDataUnsmoothed = s.fDataUnsmoothed ∧
    (SmoothDataRun alloc fn s).1.smooth = s.smooth := by
  unfold SmoothDataRun
  cases alloc with
  | false => exact ⟨rfl, rfl⟩
  | true =>
    rcases h : fn s.fDataUnsmoothed with _ | d <;> simp [h]

/-- C4: enabling smoothing (which overwrites the working buffer with smoothed
values) and then disabling it restores the working buffer to exactly its
pre-smoothing values by copying back the unsmoothed snapshot, for any overlay
in the documented in-sync state (`working = unsmoothed`) and any behaviour of
the external smoothing operator. -/
theorem C4_smooth_toggle_restores (alloc : Bool) (fn : List ℚ → Option (List ℚ))
    (s : SurfaceOverlay) (hsync : s.fData = s.fDataUnsmoothed) :
    (UpdateSmooth alloc fn
      { UpdateSmooth alloc fn { s with smooth := true } with smooth := false }).fData =
      s.fData := by
  have h1 := smoothDataRun_preserves alloc fn { s with smooth := true }
  unfold UpdateSmooth
  simp only [Bool.false_eq_true, if_false, eq_self_iff_true, if_true]
  rw [h1.1]
  exact hsync.symm

/-- Witness for C4 on a concrete in-sync overlay and a smoothing operator
that genuinely changes the buffer. -/
theorem C4_smooth_toggle_restores_witness :
    (UpdateSmooth true (fun l => some (l.map (fun x => x + 1)))
      { UpdateSmooth true (fun l => some (l.map (fun x => x + 1)))
          { { emptyOverlay with fData := [1, 2], fDataUnsmoothed := [1, 2] } with
              smooth := true } with smooth := false }).fData =
      ({ emptyOverlay with fData := [1, 2], fDataUnsmoothed := [1, 2] } :
        SurfaceOverlay).fData :=
  C4_smooth_toggle_restores true (fun l => some (l.map (fun x => x + 1)))
    { emptyOverlay with fData := [1, 2], fDataUnsmoothed := [1, 2] } rfl

/-- C8: if allocation of the intermediate buffer fails, or the external
smoothing operator returns no result, `SmoothData` reports the condition
(diagnostic flag `true`) and returns with the overlay state, in particular
the working buffer, completely untouched. -/
theorem C8_smoothData_failure (alloc : Bool) (fn : List ℚ → Option (List ℚ))
    (s : SurfaceOverlay) (h : alloc = false ∨ fn s.fDataUnsmoothed = none) :
    SmoothDataRun alloc fn s = (s, true) := by
  unfold SmoothDataRun
  rcases h with rfl | h
  · rfl
  · cases alloc with
    | false => rfl
    | true => simp [h]

/-- Witness for C8 with a failing allocation. -/
theorem C8_smoothData_failure_witness :
    SmoothDataRun false (fun _ => none) emptyOverlay = (emptyOverlay, true) :=
  C8_smoothData_failure false (fun _ => none) emptyOverlay (Or.inl rfl)

/-- C3: if `LoadCorrelationData` reads a volume whose width differs from
`2 × vertex count`, or whose height is neither 1 nor `2 × vertex count`, or
whose frame count is neither 1 nor `2 × vertex count`, or whose (header or
full) read fails, then it returns `false` and the overlay state — in
particular the correlation matrix pointer and the correlation-data and ready
flags — is unchanged. -/
theorem C3_loadCorrelation_failure (header fullRead : Option MRIVol)
    (s : SurfaceOverlay)
    (h : header = none ∨ fullRead = none ∨
      ∃ m, header = some m ∧ (m.width ≠ s.nDataSize * 2 ∨
        (m.height ≠ 1 ∧ m.height ≠ s.nDataSize * 2) ∨
        (m.nframes ≠ 1 ∧ m.nframes ≠ s.nDataSize * 2))) :
    LoadCorrelationData header fullRead s = (false, s) := by
  unfold LoadCorrelationData
  rcases h with rfl | h | ⟨m, rfl, hm⟩
  · rfl
  · cases header with
    | none => rfl
    | some m =>
      subst h
      by_cases hdm : m.width ≠ s.nDataSize * 2 ∨
        (m.height ≠ 1 ∧ m.height ≠ s.nDataSize * 2) ∨
        (m.nframes ≠ 1 ∧ m.nframes ≠ s.nDataSize * 2)
      · simp [hdm]
      · simp [hdm]
  · simp [hm]

/-- Witness for C3: a header whose width (5) differs from `2 × vertex count`
fails the load on a fresh overlay. -/
theorem C3_loadCorrelation_failure_witness :
    LoadCorrelationData
      (some { width := 5, height := 1, nframes := 1, vox := fun _ _ _ _ => 0 })
      none emptyOverlay = (false, emptyOverlay) :=
  C3_loadCorrelation_failure
    (some { width := 5, height := 1, nframes := 1, vox := fun _ _ _ _ => 0 })
    none emptyOverlay
    (Or.inr (Or.inr ⟨_, rfl, Or.inl (by decide)⟩))

/-- C10 (implicit): calling `SetComputeCorrelation(true)` with no correlation
source volume set, or with a source volume whose frame count differs from the
overlay's, still sets the compute-correlation flag while leaving the working
buffer (indeed, the entire rest of the state) unchanged, so a subsequent
`GetRange` reports `[-1, 1]` although the working buffer still holds the
non-correlation active-frame values. -/
theorem C10_computeCorrelation_degenerate (alloc : Bool)
    (fn : List ℚ → Option (List ℚ)) (corrFn : List ℚ → List ℚ → Nat → ℚ)
    (s : SurfaceOverlay)
    (h : s.volumeCorrelationSource = none ∨
      ∃ vol, s.volumeCorrelationSource = some vol ∧ vol.nframes ≠ s.nNumOfFrames) :
    SetComputeCorrelation alloc fn corrFn true s =
      { s with bComputeCorrelation := true } ∧
    (SetComputeCorrelation alloc fn corrFn true s).fData = s.fData ∧
    GetRange (SetComputeCorrelation alloc fn corrFn true s) = (-1, 1) := by
  have hmain : SetComputeCorrelation alloc fn corrFn true s =
      { s with bComputeCorrelation := true } := by
    unfold SetComputeCorrelation UpdateCorrelationCoefficient
    rcases h with h | ⟨vol, hv, hne⟩
    · simp [h]
    · simp [hv, hne]
  refine ⟨hmain, by rw [hmain], by rw [hmain]; rfl⟩

/-- Witness for C10 on a fresh overlay (no source volume set). -/
theorem C10_computeCorrelation_degenerate_witness :
    SetComputeCorrelation true (fun _ => none) (fun _ _ _ => 0) true emptyOverlay =
      { emptyOverlay with bComputeCorrelation := true } ∧
    (SetComputeCorrelation true (fun _ => none) (fun _ _ _ => 0) true
      emptyOverlay).fData = emptyOverlay.fData ∧
    GetRange (SetComputeCorrelation true (fun _ => none) (fun _ _ _ => 0) true
      emptyOverlay) = (-1, 1) :=
  C10_computeCorrelation_degenerate true (fun _ => none) (fun _ _ _ => 0)
    emptyOverlay (Or.inl rfl)

/-- With compute-correlation enabled, a source volume present and its frame
count matching, `UpdateCorrelationCoefficient` (smoothing disabled) replaces
working and unsmoothed with the per-vertex correlation values and samples the
source signal; nothing else changes. -/
theorem updateCorrelationCoefficient_fields (alloc : Bool)
    (fn : List ℚ → Option (List ℚ)) (corrFn : List ℚ → List ℚ → Nat → ℚ)
    (s : SurfaceOverlay) (vol : CorrSource)
    (hc : s.bComputeCorrelation = true)
    (hsrc : s.volumeCorrelationSource = some vol)
    (hfr : vol.nframes = s.nNumOfFrames) (hs : s.smooth = false) :
    UpdateCorrelationCoefficient alloc fn corrFn s =
      { s with fCorrelationSourceData := vol.sample,
               fData := corrValues corrFn vol.sample s.fDataRaw s.nDataSize s.nNumOfFrames,
               fDataUnsmoothed :=
                 corrValues corrFn vol.sample s.fDataRaw s.nDataSize s.nNumOfFrames } := by
  unfold UpdateCorrelationCoefficient
  simp [hc, hsrc, hfr, hs]

/-- C7: for an overlay with multi-frame raw data, a correlation source volume
whose frame count matches, smoothing disabled and an in-range active frame,
enabling compute-correlation mode immediately recomputes every vertex of the
working buffer as a correlation coefficient (unsmoothed kept in sync), and
disabling it afterwards restores the plain active-frame view: working and
unsmoothed again equal the active frame's slice of the raw buffer. -/
theorem C7_computeCorrelation_toggle (alloc : Bool)
    (fn : List ℚ → Option (List ℚ)) (corrFn : List ℚ → List ℚ → Nat → ℚ)
    (s : SurfaceOverlay) (vol : CorrSource) (k : Nat)
    (hF2 : 2 ≤ s.nNumOfFrames)
    (hsrc : s.volumeCorrelationSource = some vol)
    (hfr : vol.nframes = s.nNumOfFrames)
    (hs : s.smooth = false)
    (hlen : s.fDataRaw.length = s.nDataSize * s.nNumOfFrames)
    (hk : s.nActiveFrame = (k : Int)) (hkF : k < s.nNumOfFrames) :
    (SetComputeCorrelation alloc fn corrFn true s).fData =
      corrValues corrFn vol.sample s.fDataRaw s.nDataSize s.nNumOfFrames ∧
    (SetComputeCorrelation alloc fn corrFn true s).fDataUnsmoothed =
      (SetComputeCorrelation alloc fn corrFn true s).fData ∧
    (SetComputeCorrelation alloc fn corrFn false
        (SetComputeCorrelation alloc fn corrFn true s)).fData =
      (s.fDataRaw.drop (k * s.nDataSize)).take s.nDataSize ∧
    (SetComputeCorrelation alloc fn corrFn false
        (SetComputeCorrelation alloc fn corrFn true s)).fDataUnsmoothed =
      (SetComputeCorrelation alloc fn corrFn false
        (SetComputeCorrelation alloc fn corrFn true s)).fData := by
  have he2 : SetComputeCorrelation alloc fn corrFn true s =
      { s with bComputeCorrelation := true,
               fCorrelationSourceData := vol.sample,
               fData := corrValues corrFn vol.sample s.fDataRaw s.nDataSize s.nNumOfFrames,
               fDataUnsmoothed :=
                 corrValues corrFn vol.sample s.fDataRaw s.nDataSize s.nNumOfFrames } := by
    unfold SetComputeCorrelation
    simp only [if_true]
    exact updateCorrelationCoefficient_fields alloc fn corrFn
      { s with bComputeCorrelation := true } vol rfl hsrc hfr hs
  have hd : SetComputeCorrelation alloc fn corrFn false
      (SetComputeCorrelation alloc fn corrFn true s) =
      SetActiveFrame alloc fn ((k : Nat) : Int)
        { s with bComputeCorrelation := false,
                 fCorrelationSourceData := vol.sample,
                 fData := corrValues corrFn vol.sample s.fDataRaw s.nDataSize s.nNumOfFrames,
                 fDataUnsmoothed :=
                   corrValues corrFn vol.sample s.fDataRaw s.nDataSize s.nNumOfFrames } := by
    rw [he2]
    unfold SetComputeCorrelation
    simp only [Bool.false_eq_true, if_false]
    rw [hk]
  have hbound : k * s.nDataSize + s.nDataSize ≤ s.fDataRaw.length := by
    rw [hlen]
    calc k * s.nDataSize + s.nDataSize = (k + 1) * s.nDataSize := by ring
    _ ≤ s.nNumOfFrames * s.nDataSize := Nat.mul_le_mul_right s.nDataSize hkF
    _ = s.nDataSize * s.nNumOfFrames := Nat.mul_comm s.nNumOfFrames s.nDataSize
  have hsf := setActiveFrame_fields alloc fn k
    { s with bComputeCorrelation := false,
             fCorrelationSourceData := vol.sample,
             fData := corrValues corrFn vol.sample s.fDataRaw s.nDataSize s.nNumOfFrames,
             fDataUnsmoothed :=
               corrValues corrFn vol.sample s.fDataRaw s.nDataSize s.nNumOfFrames }
    hs (by exact_mod_cast hkF)
  have hslice : sliceFrom s.fDataRaw ((k : Int) * (s.nDataSize : Int)) s.nDataSize =
      (s.fDataRaw.drop (k * s.nDataSize)).take s.nDataSize :=
    sliceFrom_eq_drop_take s.fDataRaw k s.nDataSize hbound
  refine ⟨by rw [he2], by rw [he2], ?_, ?_⟩
  · rw [hd]
    rw [hsf.1]
    exact hslice
  · rw [hd, hsf.2.1, hsf.1]

/-- Concrete correlation source volume used by the C7 witness. -/
def c7Vol : CorrSource := { nframes := 2, sample := [3, 4] }

/-- Concrete overlay state used by the C7 witness: one vertex, two frames,
raw `[1,2]`, source volume attached, frame 0 active, smoothing off. -/
def c7State : SurfaceOverlay :=
  { emptyOverlay with
      nDataSize := 1, nNumOfFrames := 2, fDataRaw := [1, 2],
      volumeCorrelationSource := some c7Vol }

/-- Witness for C7 on `c7State` with a concrete external correlation
function. -/
theorem C7_computeCorrelation_toggle_witness :
    (SetComputeCorrelation true (fun _ => none) (fun _ _ _ => 9) true c7State).fData =
      corrValues (fun _ _ _ => 9) c7Vol.sample [1, 2] 1 2 ∧
    (SetComputeCorrelation true (fun _ => none) (fun _ _ _ => 9) true
        c7State).fDataUnsmoothed =
      (SetComputeCorrelation true (fun _ => none) (fun _ _ _ => 9) true c7State).fData ∧
    (SetComputeCorrelation true (fun _ => none) (fun _ _ _ => 9) false
        (SetComputeCorrelation true (fun _ => none) (fun _ _ _ => 9) true c7State)).fData =
      (([1, 2] : List ℚ).drop (0 * 1)).take 1 ∧
    (SetComputeCorrelation true (fun _ => none) (fun _ _ _ => 9) false
        (SetComputeCorrelation true (fun _ => none) (fun _ _ _ => 9) true
          c7State)).fDataUnsmoothed =
      (SetComputeCorrelation true (fun _ => none) (fun _ _ _ => 9) false
        (SetComputeCorrelation true (fun _ => none) (fun _ _ _ => 9) true c7State)).fData := by
  have h := C7_computeCorrelation_toggle true (fun _ => none) (fun _ _ _ => 9)
    c7State c7Vol 0 (by decide) rfl rfl rfl (by decide) (by decide) (by decide)
  exact h

/-- With a correlation matrix loaded and smoothing disabled, the seed-vertex
update writes the extracted matrix row into working, raw and unsmoothed,
rescans min/max from it, and marks the data ready; nothing else changes. -/
theorem updateCorrCore_fields (alloc : Bool) (fn : List ℚ → Option (List ℚ))
    (v h : Nat) (s : SurfaceOverlay) (m : MRIVol)
    (hm : s.mriCorrelation = some m) (hs : s.smooth = false) :
    updateCorrCore alloc fn v h s =
      { s with
          dMinValue := (scanMinMax (corrRow m v h s.hemisphere s.nDataSize)
            (corrRowVal m v h s.hemisphere s.nDataSize 0)
            (corrRowVal m v h s.hemisphere s.nDataSize 0)).1,
          dMaxValue := (scanMinMax (corrRow m v h s.hemisphere s.nDataSize)
            (corrRowVal m v h s.hemisphere s.nDataSize 0)
            (corrRowVal m v h s.hemisphere s.nDataSize 0)).2,
          fData := corrRow m v h s.hemisphere s.nDataSize,
          fDataRaw := corrRow m v h s.hemisphere s.nDataSize ++ s.fDataRaw.drop s.nDataSize,
          fDataUnsmoothed := corrRow m v h s.hemisphere s.nDataSize,
          bCorrelationDataReady := true } := by
  unfold updateCorrCore
  rw [hm]
  simp [hs]

/-- C5 counterexample: a concrete shared 2×2 correlation matrix whose two
columns differ.  Propagating the seed-vertex update from overlay `a`
(hemisphere 0) to its pair `b` (hemisphere 1) leaves `a` with working buffer
`[3]` but `b` with `[7]`: the propagated working-buffer contents are NOT
identical, because each overlay reads the shared matrix at its own
hemisphere's data offset. -/
theorem C5_counterexample :
    (UpdateCorrelationAtVertex true (fun _ => none) 2 0 0 true
      { emptyOverlay with
          nDataSize := 1, fDataRaw := [0], fData := [0], fDataUnsmoothed := [0],
          mriCorrelation := some
            { width := 2, height := 2, nframes := 1,
              vox := fun x y _ _ => if x = 0 ∧ y = 0 then 3 else 7 },
          hemisphere := 0 }
      { emptyOverlay with
          nDataSize := 1, fDataRaw := [0], fData := [0], fDataUnsmoothed := [0],
          mriCorrelation := some
            { width := 2, height := 2, nframes := 1,
              vox := fun x y _ _ => if x = 0 ∧ y = 0 then 3 else 7 },
          hemisphere := 1 }).1.fData = [(3 : ℚ)] ∧
    (UpdateCorrelationAtVertex true (fun _ => none) 2 0 0 true
      { emptyOverlay with
          nDataSize := 1, fDataRaw := [0], fData := [0], fDataUnsmoothed := [0],
          mriCorrelation := some
            { width := 2, height := 2, nframes := 1,
              vox := fun x y _ _ => if x = 0 ∧ y = 0 then 3 else 7 },
          hemisphere := 0 }
      { emptyOverlay with
          nDataSize := 1, fDataRaw := [0], fData := [0], fDataUnsmoothed := [0],
          mriCorrelation := some
            { width := 2, height := 2, nframes := 1,
              vox := fun x y _ _ => if x = 0 ∧ y = 0 then 3 else 7 },
          hemisphere := 1 }).2.1.fData = [(7 : ℚ)] := by
  exact ⟨by decide, by decide⟩

/-- C5 amended: calling `UpdateCorrelationAtVertex` on overlay `a` with a
paired overlay `b` (shared matrix, opposite hemispheres, smoothing disabled)
and the hemisphere equal to `a`'s own propagates the corresponding update to
`b` exactly once — `b` ends in the state of a single seed-vertex update with
the same seed and hemisphere, its working buffer holding the shared matrix's
row at `b`'s own data offset — with `b`'s change notifications suppressed
during the propagated call (`b` emits no `DataUpdated`, `a` emits exactly
one), for any recursion bound of at least two. -/
theorem C5_paired_propagation (alloc : Bool) (fn : List ℚ → Option (List ℚ))
    (fuel v : Nat) (a b : SurfaceOverlay) (m : MRIVol)
    (hma : a.mriCorrelation = some m) (hmb : b.mriCorrelation = some m)
    (hhemi : a.hemisphere ≠ b.hemisphere)
    (hsa : a.smooth = false) (hsb : b.smooth = false) :
    (UpdateCorrelationAtVertex alloc fn (fuel + 2) v (a.hemisphere : Int) true a b).1 =
      updateCorrCore alloc fn v a.hemisphere a ∧
    (UpdateCorrelationAtVertex alloc fn (fuel + 2) v (a.hemisphere : Int) true a b).2.1 =
      updateCorrCore alloc fn v a.hemisphere b ∧
    (UpdateCorrelationAtVertex alloc fn (fuel + 2) v (a.hemisphere : Int) true a b).2.1.fData =
      corrRow m v a.hemisphere b.hemisphere b.nDataSize ∧
    (UpdateCorrelationAtVertex alloc fn (fuel + 2) v (a.hemisphere : Int) true a b).2.2.1 = 1 ∧
    (UpdateCorrelationAtVertex alloc fn (fuel + 2) v (a.hemisphere : Int) true a b).2.2.2 = 0 := by
  have hne1 : ¬((a.hemisphere : Int) = -1) := by omega
  have hca := updateCorrCore_fields alloc fn v a.hemisphere a m hma hsa
  have hcb := updateCorrCore_fields alloc fn v a.hemisphere b m hmb hsb
  have hguard1 : (updateCorrCore alloc fn v a.hemisphere a).hemisphere = a.hemisphere := by
    rw [hca]
  have hguard2 : (updateCorrCore alloc fn v a.hemisphere b).hemisphere = b.hemisphere := by
    rw [hcb]
  unfold UpdateCorrelationAtVertex
  simp only [updateCVAux, hne1, if_false, Int.toNat_natCast, hguard1, hguard2,
    hhemi, and_true, and_false, if_true, true_and, eq_self_iff_true]
  simp only [hcb]
  simp

/-- Witness for C5 on the concrete opposite-hemisphere pair with the shared
2×2 matrix. -/
theorem C5_paired_propagation_witness :
    (UpdateCorrelationAtVertex true (fun _ => none) (0 + 2) 0
      ((({ emptyOverlay with
            nDataSize := 1, fDataRaw := [0], fData := [0], fDataUnsmoothed := [0],
            mriCorrelation := some
              { width := 2, height := 2, nframes := 1,
                vox := fun x y _ _ => if x = 0 ∧ y = 0 then 3 else 7 },
            hemisphere := 0 } : SurfaceOverlay).hemisphere : Nat) : Int) true
      { emptyOverlay with
          nDataSize := 1, fDataRaw := [0], fData := [0], fDataUnsmoothed := [0],
          mriCorrelation := some
            { width := 2, height := 2, nframes := 1,
              vox := fun x y _ _ => if x = 0 ∧ y = 0 then 3 else 7 },
          hemisphere := 0 }
      { emptyOverlay with
          nDataSize := 1, fDataRaw := [1], fData := [1], fDataUnsmoothed := [1],
          mriCorrelation := some
            { width := 2, height := 2, nframes := 1,
              vox := fun x y _ _ => if x = 0 ∧ y = 0 then 3 else 7 },
          hemisphere := 1 }).2.2.1 = 1 ∧
    (UpdateCorrelationAtVertex true (fun _ => none) (0 + 2) 0
      ((({ emptyOverlay with
            nDataSize := 1, fDataRaw := [0], fData := [0], fDataUnsmoothed := [0],
            mriCorrelation := some
              { width := 2, height := 2, nframes := 1,
                vox := fun x y _ _ => if x = 0 ∧ y = 0 then 3 else 7 },
            hemisphere := 0 } : SurfaceOverlay).hemisphere : Nat) : Int) true
      { emptyOverlay with
          nDataSize := 1, fDataRaw := [0], fData := [0], fDataUnsmoothed := [0],
          mriCorrelation := some
            { width := 2, height := 2, nframes := 1,
              vox := fun x y _ _ => if x = 0 ∧ y = 0 then 3 else 7 },
          hemisphere := 0 }
      { emptyOverlay with
          nDataSize := 1, fDataRaw := [1], fData := [1], fDataUnsmoothed := [1],
          mriCorrelation := some
            { width := 2, height := 2, nframes := 1,
              vox := fun x y _ _ => if x = 0 ∧ y = 0 then 3 else 7 },
          hemisphere := 1 }).2.2.2 = 0 := by
  have h := C5_paired_propagation true (fun _ => none) 0 0
    { emptyOverlay with
        nDataSize := 1, fDataRaw := [0], fData := [0], fDataUnsmoothed := [0],
        mriCorrelation := some
          { width := 2, height := 2, nframes := 1,
            vox := fun x y _ _ => if x = 0 ∧ y = 0 then 3 else 7 },
        hemisphere := 0 }
    { emptyOverlay with
        nDataSize := 1, fDataRaw := [1], fData := [1], fDataUnsmoothed := [1],
        mriCorrelation := some
          { width := 2, height := 2, nframes := 1,
            vox := fun x y _ _ => if x = 0 ∧ y = 0 then 3 else 7 },
        hemisphere := 1 }
    { width := 2, height := 2, nframes := 1,
      vox := fun x y _ _ => if x = 0 ∧ y = 0 then 3 else 7 }
    rfl rfl (by decide) rfl rfl
  exact ⟨h.2.2.2.1, h.2.2.2.2⟩

/-- C9: with the two overlays paired (mutual back-references, shared property
object, shared correlation matrix), destroying either one first nulls the
partner's back-reference and frees nothing; the partner's later destruction
— it then holds no live pair pointer — frees the shared property exactly
once and the shared matrix exactly once, so the partner never frees a
dangling shared object. -/
theorem C9_paired_destruction (w : PairWorld)
    (hA : w.aBackref = true) (hB : w.bBackref = true)
    (hp : w.propFrees = 0) (hm : w.mriFrees = 0) :
    (destroyA w).bBackref = false ∧
    (destroyA w).propFrees = 0 ∧ (destroyA w).mriFrees = 0 ∧
    (destroyB (destroyA w)).propFrees = 1 ∧
    (destroyB (destroyA w)).mriFrees = (if w.hasMatrix then 1 else 0) ∧
    (destroyB w).aBackref = false ∧
    (destroyB w).propFrees = 0 ∧ (destroyB w).mriFrees = 0 ∧
    (destroyA (destroyB w)).propFrees = 1 ∧
    (destroyA (destroyB w)).mriFrees = (if w.hasMatrix then 1 else 0) := by
  unfold destroyA destroyB
  simp [hA, hB, hp, hm]

/-- Freshly paired two-overlay world (mutual back-references, shared
property, matrix loaded, nothing freed yet). -/
def pairedWorld : PairWorld :=
  { aBackref := true, bBackref := true, hasMatrix := true,
    propFrees := 0, mriFrees := 0 }

/-- Witness for C9 on the concrete paired world with a loaded matrix. -/
theorem C9_paired_destruction_witness :
    (destroyA pairedWorld).bBackref = false ∧
    (destroyA pairedWorld).propFrees = 0 ∧
    (destroyA pairedWorld).mriFrees = 0 ∧
    (destroyB (destroyA pairedWorld)).propFrees = 1 ∧
    (destroyB (destroyA pairedWorld)).mriFrees =
      (if pairedWorld.hasMatrix then 1 else 0) ∧
    (destroyB pairedWorld).aBackref = false ∧
    (destroyB pairedWorld).propFrees = 0 ∧
    (destroyB pairedWorld).mriFrees = 0 ∧
    (destroyA (destroyB pairedWorld)).propFrees = 1 ∧
    (destroyA (destroyB pairedWorld)).mriFrees =
      (if pairedWorld.hasMatrix then 1 else 0) :=
  C9_paired_destruction pairedWorld rfl rfl rfl rfl
